import Mathlib

/-!
Verification development for the attendance-maps Verification Decision Engine.

This file gives a shallow embedding, in Lean 4, of the decision algorithms of
the attendance system backend:

* `FaceRecognitionService.verify_faces` together with its helper
  `_advanced_similarity_analysis` (backend/app/services/face_recognition.py);
* `FaceRecognitionService.detect_liveness` (same file);
* `FaceRecognitionService.analyze_temporal_security_patterns` (same file);
* `NetworkVerificationService.verify_network_access` and `_verify_ip_range`
  (backend/app/services/network_verification.py);
* the stored-embedding validation loop and the orchestration control flow of
  the `mark_attendance` route (backend/app/routers/attendance.py).

Numeric values are modelled exactly, over an arbitrary linear ordered field
`K`.  The only operation of the Python code that is not field arithmetic is
the square root used by `np.linalg.norm` and `np.std`; it is modelled as an
explicit function parameter `s : K → K`, constrained where a theorem needs it
by the pointwise specification `SqrtSpecOn`, which says that `s` behaves as
the (exact, nonnegative) square root at precisely the arguments the
computation feeds to it.  Concrete runs instantiate `K := ℚ` with inputs
whose norms, distances and standard deviations are rational, so that the
run agrees with the exact-real computation.
-/

namespace AttendanceMaps

section VectorMath

variable {K : Type*} [LinearOrderedField K]

/-- np.dot for two vectors given as lists. -/
def dot (a b : List K) : K := (List.zipWith (fun x y => x * y) a b).sum

/-- Sum of squares of a vector; np.linalg.norm is its square root. -/
def sumSq (a : List K) : K := dot a a

/-- Componentwise vector difference (current_emb - stored_emb). -/
def vsub (a b : List K) : List K := List.zipWith (fun x y => x - y) a b

/-- np.mean of a list (empty lists never reach this point in the code). -/
def mean (xs : List K) : K := xs.sum / (xs.length : K)

/-- np.var of a list: the population variance; np.std is its square root. -/
def popVar (xs : List K) : K := mean (xs.map (fun x => (x - mean xs) ^ 2))

end VectorMath

section FaceMatcher

variable {K : Type*} [LinearOrderedField K]

/-- One iteration of the comparison loop of `_advanced_similarity_analysis`:
cosine similarity of the current and one stored embedding, clamped to `≥ 0`
(`max(0, cosine_sim)`), and `0.0` when either norm is zero.  The square root
used by `np.linalg.norm` is supplied as `s`. -/
def cosineSimilarityClamped (s : K → K) (cur v : List K) : K :=
  if 0 < s (sumSq cur) ∧ 0 < s (sumSq v) then
    max 0 (dot cur v / (s (sumSq cur) * s (sumSq v)))
  else 0

/-- The Euclidean-distance-derived similarity `1 / (1 + euclidean_dist)` of
`_advanced_similarity_analysis`. -/
def euclideanSimilarity (s : K → K) (cur v : List K) : K :=
  1 / (1 + s (sumSq (vsub cur v)))

/-- The `1e-8` guard added to the denominator of the variance check. -/
def epsGuard : K := 1 / 100000000

/-- Result record of `_advanced_similarity_analysis` (the dictionary it
returns, minus the duplicated best-similarity entry kept in
`cosine_similarity`). -/
structure SimilarityAnalysis (K : Type*) where
  cosine_similarity : K
  cosine_mean : K
  cosine_std : K
  cosine_min : K
  cosine_range : K
  euclidean_mean : K
  consensus_score : K
  variance_penalty : K
  range_penalty : K
  final_confidence : K

/-- `FaceRecognitionService._advanced_similarity_analysis`: multi-metric
similarity of the current embedding against every stored embedding, with the
statistical aggregates, penalties and blended final confidence computed
exactly as in the source. -/
def advanced_similarity_analysis (s : K → K) (cur : List K) (stored : List (List K)) :
    SimilarityAnalysis K :=
  let cosine_similarities := stored.map (cosineSimilarityClamped s cur)
  let euclidean_similarities := stored.map (euclideanSimilarity s cur)
  let cosine_mean := mean cosine_similarities
  let cosine_std := s (popVar cosine_similarities)
  let cosine_max := (cosine_similarities.max?).getD 0
  let cosine_min := (cosine_similarities.min?).getD 0
  let euclidean_mean := mean euclidean_similarities
  let consensus_score := cosine_mean * (7 / 10) + euclidean_mean * (3 / 10)
  let variance_penalty := min 1 (cosine_std / (cosine_mean + epsGuard) * 2)
  let range_check := cosine_max - cosine_min
  let range_penalty := min 1 (range_check * 3)
  let final_confidence :=
    consensus_score * (1 - variance_penalty * (3 / 10)) * (1 - range_penalty * (2 / 10))
  ⟨cosine_max, cosine_mean, cosine_std, cosine_min, range_check, euclidean_mean,
   consensus_score, variance_penalty, range_penalty, final_confidence⟩

/-- `self.threshold = 0.65` in `FaceRecognitionService.__init__`. -/
def threshold : K := 65 / 100

/-- `self.min_acceptable_threshold = 0.55`. -/
def min_acceptable_threshold : K := 55 / 100

/-- `self.consensus_threshold = 0.65`. -/
def consensus_threshold : K := 65 / 100

/-- `self.high_similarity_override = 0.9`. -/
def high_similarity_override : K := 9 / 10

/-- The five security checks of `verify_faces`, by the names the source logs
them under. -/
inductive CheckName : Type
  | primaryThreshold
  | consensusThreshold
  | varianceCheck
  | rangeConsistency
  | minimumBaseline
  deriving DecidableEq

/-- The verification record returned by `verify_faces` on its non-error path
(the result dictionary, with the checks keyed by `CheckName`). -/
structure VerifyResult (K : Type*) where
  matched : Bool
  confidence : K
  raw_similarity : K
  consensus_score : K
  threshold : K
  security_checks : List (CheckName × Bool)
  variance_penalty : K
  range_penalty : K
  high_similarity_override : Bool
  effective_threshold : K

/-- The comparison and decision part of `FaceRecognitionService.verify_faces`
(everything after the live embedding has been extracted): the five security
checks, the high-similarity override, and the final match decision. -/
def verify_faces_checks (s : K → K) (live : List K) (stored : List (List K)) :
    VerifyResult K :=
  let analysis := advanced_similarity_analysis s live stored
  let best_similarity := analysis.cosine_similarity
  let hso : Bool := decide (high_similarity_override ≤ best_similarity)
  let effective_threshold := if hso then threshold * (85 / 100) else threshold
  let effective_consensus := if hso then consensus_threshold * (9 / 10) else consensus_threshold
  let variance_threshold : K := if hso then 6 / 10 else 5 / 10
  let range_threshold : K := if hso then 4 / 10 else 3 / 10
  let threshold_pass : Bool := decide (effective_threshold ≤ analysis.final_confidence)
  let consensus_pass : Bool := decide (effective_consensus ≤ analysis.consensus_score)
  let variance_pass : Bool := decide (analysis.variance_penalty < variance_threshold)
  let range_pass : Bool := decide (analysis.range_penalty < range_threshold)
  let baseline_pass : Bool := decide (min_acceptable_threshold ≤ best_similarity)
  let security_checks : List (CheckName × Bool) :=
    [(CheckName.primaryThreshold, threshold_pass),
     (CheckName.consensusThreshold, consensus_pass),
     (CheckName.varianceCheck, variance_pass),
     (CheckName.rangeConsistency, range_pass),
     (CheckName.minimumBaseline, baseline_pass)]
  let critical_checks : List CheckName := [CheckName.primaryThreshold, CheckName.minimumBaseline]
  let critical_pass : Bool :=
    (security_checks.filter (fun c => decide (c.fst ∈ critical_checks))).all (fun c => c.snd)
  let passed_checks : Nat := (security_checks.filter (fun c => c.snd)).length
  let all_checks_pass : Bool := if hso then critical_pass else decide (4 ≤ passed_checks)
  ⟨all_checks_pass, analysis.final_confidence, best_similarity, analysis.consensus_score,
   threshold, security_checks, analysis.variance_penalty, analysis.range_penalty,
   hso, effective_threshold⟩

/-- Outcome of `verify_faces`: either one of the error dictionaries (which all
carry `match: False, confidence: 0.0`), or the full verification record. -/
inductive VerifyOutcome (K : Type*)
  | errorResult
  | result (r : VerifyResult K)

/-- `FaceRecognitionService.verify_faces` in real (non-testing) mode.  Image
decoding and embedding extraction are external capabilities, so the live
image is represented by its extraction outcome: `none` when no face was
detected (or the image failed to process), `some live` for the extracted
embedding. -/
def verify_faces (s : K → K) (live_embedding : Option (List K)) (stored : List (List K)) :
    VerifyOutcome K :=
  if stored.isEmpty then VerifyOutcome.errorResult
  else
    match live_embedding with
    | none => VerifyOutcome.errorResult
    | some live => VerifyOutcome.result (verify_faces_checks s live stored)

/-- The `confidence` entry of the dictionary returned by `verify_faces`
(every error dictionary carries `0.0`). -/
def VerifyOutcome.confidence : VerifyOutcome K → K
  | VerifyOutcome.errorResult => 0
  | VerifyOutcome.result r => r.confidence

/-- The `match` entry of the dictionary returned by `verify_faces`. -/
def VerifyOutcome.matched : VerifyOutcome K → Bool
  | VerifyOutcome.errorResult => false
  | VerifyOutcome.result r => r.matched

/-- `s` behaves as the exact nonnegative square root at `x`. -/
def SqrtSpec (s : K → K) (x : K) : Prop := 0 ≤ s x ∧ s x * s x = x

/-- Every argument that one run of the similarity analysis feeds to the
square root: the squared norm of the live embedding, of every stored
embedding, of every difference vector, and the population variance of the
cosine similarities (for `np.std`). -/
def sqrtArgs (s : K → K) (cur : List K) (stored : List (List K)) : List K :=
  sumSq cur :: (stored.map sumSq ++ stored.map (fun v => sumSq (vsub cur v)) ++
    [popVar (stored.map (cosineSimilarityClamped s cur))])

/-- `s` is the exact square root at every point this run consults it, so the
run coincides with the computation over the reals. -/
def SqrtSpecOn (s : K → K) (cur : List K) (stored : List (List K)) : Prop :=
  (sqrtArgs s cur stored).Forall (SqrtSpec s)

end FaceMatcher

section LivenessEvaluator

/-- An OpenCV face-detection rectangle `(x, y, w, h)`. -/
structure Rect where
  x : ℕ
  y : ℕ
  w : ℕ
  h : ℕ

/-- One frame of the liveness sequence, by the outcome of the external image
pipeline: `none` when `_decode_base64_image` fails (the loop skips the frame),
`some faces` for the rectangles returned by `detectMultiScale`. -/
abbrev Frame := Option (List Rect)

/-- Result of `detect_liveness`: the short-sequence early return, or the full
result dictionary. -/
inductive LivenessResult
  | insufficientFrames
  | result (liveness_passed : Bool) (face_detection_rate : ℚ) (movement_detected : Bool)
      (frames_processed : ℕ) (face_areas_variance : ℚ)

/-- The `face_areas` list built by the frame loop of `detect_liveness`: for
each decoded frame with at least one detected face, the area `w * h` of the
first face.  `face_detected_count` is incremented exactly when an area is
appended, so it equals this list's length. -/
def frameAreas (frames : List Frame) : List ℚ :=
  frames.filterMap (fun f =>
    match f with
    | none => none
    | some [] => none
    | some (r :: _) => some ((r.w * r.h : ℕ) : ℚ))

/-- `FaceRecognitionService.detect_liveness` in real mode. -/
def detect_liveness (frames : List Frame) : LivenessResult :=
  if frames.length < 3 then LivenessResult.insufficientFrames
  else
    let face_areas := frameAreas frames
    let face_detection_rate : ℚ := (face_areas.length : ℚ) / (frames.length : ℚ)
    let movement_detected : Bool :=
      if 1 < face_areas.length then decide (100 < popVar face_areas) else false
    let liveness_passed : Bool :=
      decide ((7 : ℚ) / 10 ≤ face_detection_rate) &&
        (movement_detected || decide (frames.length ≤ 5))
    LivenessResult.result liveness_passed face_detection_rate movement_detected frames.length
      (if face_areas.isEmpty then 0 else popVar face_areas)

/-- The `liveness_passed` entry of the dictionary returned by
`detect_liveness` (`False` in the insufficient-frames dictionary). -/
def LivenessResult.passed : LivenessResult → Bool
  | LivenessResult.insufficientFrames => false
  | LivenessResult.result p _ _ _ _ => p

/-- The `face_detection_rate` entry (absent, read as 0, for the
insufficient-frames dictionary). -/
def LivenessResult.rate : LivenessResult → ℚ
  | LivenessResult.insufficientFrames => 0
  | LivenessResult.result _ r _ _ _ => r

/-- The `movement_detected` entry. -/
def LivenessResult.movement : LivenessResult → Bool
  | LivenessResult.insufficientFrames => false
  | LivenessResult.result _ _ m _ _ => m

end LivenessEvaluator

section TemporalSecurityAnalyzer

/-- The `timestamp` field of a raw attempt record, as
`datetime.fromisoformat(attempt.get('timestamp', now.isoformat()))` sees it:
absent (the dict-get default makes it "now"), present but unparseable
(`fromisoformat` raises `ValueError`), or a valid time, recorded as seconds
before "now". -/
inductive TimestampField
  | missing
  | malformed
  | iso (secondsAgo : ℚ)

/-- A raw attempt record from the attendance table, reduced to the fields
`analyze_temporal_security_patterns` reads.  `confidence_score := some 0`
models a stored score of `0.0`, which the truthiness filter of the code
drops; a `none` field models an absent key. -/
structure AttemptRecord where
  timestamp : TimestampField
  confidence_score : Option ℚ
  success : Option Bool

/-- Severity tag of a suspicious pattern. -/
inductive Severity
  | MEDIUM
  | HIGH
  deriving DecidableEq

/-- Recommendation tag of a suspicious pattern. -/
inductive Recommendation
  | BLOCK_TEMPORARILY
  | REQUIRE_ADDITIONAL_VERIFICATION
  deriving DecidableEq

/-- The `type` tag of a suspicious pattern. -/
inductive PatternType
  | RAPID_ATTEMPTS
  | CONFIDENCE_VARIANCE
  | SUDDEN_SUCCESS_AFTER_FAILURES
  deriving DecidableEq

/-- One entry of the `suspicious_patterns` list. -/
structure SuspiciousPattern where
  ptype : PatternType
  severity : Severity
  recommendation : Recommendation

/-- Overall risk assessment. -/
inductive RiskLevel
  | LOW
  | MEDIUM
  | HIGH
  deriving DecidableEq

/-- The result dictionary of `analyze_temporal_security_patterns`. -/
structure TemporalResult where
  risk_level : RiskLevel
  suspicious_patterns : List SuspiciousPattern
  total_attempts_24h : ℕ
  total_attempts_1h : ℕ
  should_block : Bool
  should_require_additional_verification : Bool

/-- `datetime.fromisoformat(attempt.get('timestamp', now.isoformat()))`,
expressed as the attempt's age in seconds: a missing field defaults to "now"
(age 0), a malformed field raises `ValueError`. -/
def parseTimestampAge : TimestampField → Except Unit ℚ
  | TimestampField.missing => Except.ok 0
  | TimestampField.malformed => Except.error ()
  | TimestampField.iso t => Except.ok t

/-- The timestamp parsing performed inside the `recent_24h` / `recent_1h`
list comprehensions: every record's timestamp is parsed, and the first
`ValueError` aborts the whole comprehension (and hence the function). -/
def parseAges : List AttemptRecord → Except Unit (List (AttemptRecord × ℚ))
  | [] => Except.ok []
  | a :: rest =>
    match parseTimestampAge a.timestamp with
    | Except.error e => Except.error e
    | Except.ok t =>
      match parseAges rest with
      | Except.error e => Except.error e
      | Except.ok l => Except.ok ((a, t) :: l)

/-- `FaceRecognitionService.analyze_temporal_security_patterns`.  An
`Except.error` value models the `ValueError` that `datetime.fromisoformat`
raises out of the function on a malformed timestamp (the caller in
`mark_attendance` catches it). -/
def analyze_temporal_security_patterns (recent_attempts : List AttemptRecord)
    (current_confidence : ℚ) : Except Unit TemporalResult :=
  match parseAges recent_attempts with
  | Except.error e => Except.error e
  | Except.ok aged =>
    let recent_24h := aged.filter (fun p => decide (p.snd < 86400))
    let recent_1h := aged.filter (fun p => decide (p.snd < 3600))
    let patterns1 : List SuspiciousPattern :=
      if 10 < recent_1h.length then
        [⟨PatternType.RAPID_ATTEMPTS, Severity.HIGH, Recommendation.BLOCK_TEMPORARILY⟩]
      else []
    let confidences := recent_24h.filterMap (fun p =>
      match p.fst.confidence_score with
      | none => none
      | some c => if c = 0 then none else some c)
    let patterns2 : List SuspiciousPattern :=
      if 3 ≤ recent_24h.length ∧ confidences ≠ [] ∧
          (1 : ℚ) / 10 < popVar confidences ∧ current_confidence < 6 / 10 then
        [⟨PatternType.CONFIDENCE_VARIANCE, Severity.MEDIUM,
          Recommendation.REQUIRE_ADDITIONAL_VERIFICATION⟩]
      else []
    let failed_attempts := recent_24h.filter (fun p => !(p.fst.success.getD true))
    let patterns3 : List SuspiciousPattern :=
      if 3 ≤ failed_attempts.length ∧ (1 : ℚ) / 2 < current_confidence ∧
          ((failed_attempts.map (fun p => p.snd)).min?).getD 0 < 600 then
        [⟨PatternType.SUDDEN_SUCCESS_AFTER_FAILURES, Severity.HIGH,
          Recommendation.REQUIRE_ADDITIONAL_VERIFICATION⟩]
      else []
    let suspicious_patterns := patterns1 ++ patterns2 ++ patterns3
    let risk_level :=
      if suspicious_patterns.any (fun p => decide (p.severity = Severity.HIGH)) then RiskLevel.HIGH
      else if suspicious_patterns.any (fun p => decide (p.severity = Severity.MEDIUM)) then
        RiskLevel.MEDIUM
      else RiskLevel.LOW
    let should_block :=
      suspicious_patterns.any (fun p => decide (p.recommendation = Recommendation.BLOCK_TEMPORARILY))
    let should_require :=
      suspicious_patterns.any
        (fun p => decide (p.recommendation = Recommendation.REQUIRE_ADDITIONAL_VERIFICATION))
    Except.ok ⟨risk_level, suspicious_patterns, recent_24h.length, recent_1h.length,
      should_block, should_require⟩

end TemporalSecurityAnalyzer

section NetworkVerifier

/-- A parsed IPv4 address. -/
structure IPv4 where
  a : ℕ
  b : ℕ
  c : ℕ
  d : ℕ

/-- The 32-bit value of an IPv4 address. -/
def ipToNat (ip : IPv4) : ℕ := ((ip.a * 256 + ip.b) * 256 + ip.c) * 256 + ip.d

/-- A CIDR network such as `192.168.0.0/16`. -/
structure CIDRNetwork where
  base : IPv4
  prefixLen : ℕ

/-- `ipaddress`-style membership of an address in a CIDR network: the two
addresses agree on the first `prefixLen` bits. -/
def inNetwork (ip : IPv4) (net : CIDRNetwork) : Bool :=
  decide (ipToNat ip / 2 ^ (32 - net.prefixLen) = ipToNat net.base / 2 ^ (32 - net.prefixLen))

/-- `NetworkVerificationService._verify_ip_range`, reduced to its `verified`
entry.  The client IP arrives as the outcome of `ipaddress.ip_address`:
`none` when parsing raised (the `except` branch returns `verified: False`),
`some ip` for a parsed address, which is then tested against every allowed
range. -/
def verify_ip_range (allowed_ip_ranges : List CIDRNetwork) (client_ip : Option IPv4) : Bool :=
  match client_ip with
  | none => false
  | some ip => allowed_ip_ranges.any (fun net => inNetwork ip net)

/-- The verification entries of the dictionary returned by
`verify_network_access`. -/
structure NetworkAccessResult where
  network_verified : Bool
  ssid_verified : Bool
  ip_verified : Bool
  security_score : ℚ

/-- `NetworkVerificationService.verify_network_access` as written: the body
begins with an unconditional "TESTING MODE" return that reports every check
as verified with `security_score` 1.0; the SSID / IP-range / hotspot logic
below that return statement is dead code, so the configured ranges and the
client IP are ignored. -/
def verify_network_access (allowed_ip_ranges : List CIDRNetwork)
    (client_ip : Option IPv4) : NetworkAccessResult :=
  ⟨true, true, true, 1⟩

end NetworkVerifier

section Orchestrator

/-- A Python float value as stored in an embedding, distinguishing the
non-finite values: `float(x)` succeeds on all of these; `notNumber` stands
for a list element on which `float(x)` raises. -/
inductive PyVal
  | num (q : ℚ)
  | nan
  | inf
  | ninf
  | notNumber

/-- The `embedding` field of one `face_embeddings` row, by how the
validation loop of `mark_attendance` can see it: a JSON string (with its
parse outcome; `none` models a `json.JSONDecodeError`), a native list, or
any other value (including a string that parses to a non-list), which fails
the `isinstance(embedding, list)` test. -/
inductive EmbeddingField
  | jsonStr (parsed : Option (List PyVal))
  | pyList (xs : List PyVal)
  | notList

/-- The per-record validation of the loop in `mark_attendance` (step 3):
unparseable JSON strings are skipped (`continue`), non-lists and empty lists
are skipped, a `float(x)` failure inside the conversion is caught and skips
the record; every other record is kept unchanged.  No finiteness check is
performed. -/
def validateEmbeddingRecord : EmbeddingField → Option (List PyVal) :=
  let check : List PyVal → Option (List PyVal) := fun xs =>
    if xs.isEmpty then none
    else if xs.any (fun v => match v with | PyVal.notNumber => true | _ => false) then none
    else some xs
  fun e =>
    match e with
    | EmbeddingField.jsonStr none => none
    | EmbeddingField.jsonStr (some xs) => check xs
    | EmbeddingField.pyList xs => check xs
    | EmbeddingField.notList => none

/-- The `stored_embeddings` list built by the validation loop of
`mark_attendance` from the raw rows. -/
def validateStoredEmbeddings (rows : List EmbeddingField) : List (List PyVal) :=
  rows.filterMap validateEmbeddingRecord

/-- The fields of `verification_details` that the advanced-security step of
`mark_attendance` writes, with exception payloads of type `E`. -/
structure VerificationDetails (E : Type) where
  temporal_security : Option TemporalResult
  additional_verification_recommended : Bool
  security_check_error : Option E

/-- Outcome of the `mark_attendance` route: an `AttendanceResponse` with its
`success` flag and the recorded details, or an HTTP error raised past the
route body. -/
inductive MarkOutcome (E : Type)
  | response (success : Bool) (details : VerificationDetails E)
  | httpError (status : ℕ)

/-- Inputs of one `mark_attendance` run.  The stages that live outside the
engine (network service result, database rows, the face-verification call,
the temporal-analysis call, the attendance insert) are supplied as their
outcomes; `Except.error` models the call raising an exception. -/
structure MarkAttendanceInput (E : Type) where
  network_verified : Bool
  liveness_sequence : Option (List Frame)
  embeddings_query : List EmbeddingField
  face_result : Except E (VerifyOutcome ℚ)
  temporal_result : Except E TemporalResult
  insert_ok : Bool

/-- The control flow of the `mark_attendance` route (backend router,
`/verify`): network gate, optional liveness gate, stored-embedding
validation, face verification, the post-match advanced security step —
whose own exception is caught, recorded under `security_check_error`, and
does not stop the pipeline — then recording of attendance. -/
def mark_attendance {E : Type} (inp : MarkAttendanceInput E) : MarkOutcome E :=
  let d0 : VerificationDetails E := ⟨none, false, none⟩
  if !inp.network_verified then MarkOutcome.response false d0
  else if (match inp.liveness_sequence with
           | none => false
           | some seq => !seq.isEmpty && !(detect_liveness seq).passed) then
    MarkOutcome.response false d0
  else if inp.embeddings_query.isEmpty then MarkOutcome.response false d0
  else if (validateStoredEmbeddings inp.embeddings_query).isEmpty then
    MarkOutcome.response false d0
  else
    match inp.face_result with
    | Except.error _ => MarkOutcome.response false d0
    | Except.ok face =>
      if face.matched then
        match inp.temporal_result with
        | Except.error e =>
          if inp.insert_ok then MarkOutcome.response true ⟨none, false, some e⟩
          else MarkOutcome.httpError 500
        | Except.ok t =>
          if t.should_block then MarkOutcome.response false ⟨some t, false, none⟩
          else if inp.insert_ok then
            MarkOutcome.response true ⟨some t, t.should_require_additional_verification, none⟩
          else MarkOutcome.httpError 500
      else MarkOutcome.response false d0

end Orchestrator

section MathLemmas

variable {K : Type*} [LinearOrderedField K]

theorem sumSq_eq_sum_map_sq (a : List K) : sumSq a = (a.map (fun x => x * x)).sum := by
  unfold sumSq dot
  induction a with
  | nil => simp
  | cons x as ih => simp [List.zipWith, ih]

theorem sumSq_nonneg (a : List K) : 0 ≤ sumSq a := by
  rw [sumSq_eq_sum_map_sq]
  apply List.sum_nonneg
  intro x hx
  rcases List.mem_map.mp hx with ⟨y, _, rfl⟩
  exact mul_self_nonneg y

theorem sumSq_cons (x : K) (a : List K) : sumSq (x :: a) = x * x + sumSq a := by
  simp [sumSq, dot, List.zipWith]

theorem dot_sq_le_sumSq_mul (a b : List K) : dot a b ^ 2 ≤ sumSq a * sumSq b := by
  induction a generalizing b with
  | nil => simpa [dot] using mul_nonneg (sumSq_nonneg ([] : List K)) (sumSq_nonneg b)
  | cons x as ih =>
    cases b with
    | nil =>
      simpa [dot] using mul_nonneg (sumSq_nonneg (x :: as)) (sumSq_nonneg ([] : List K))
    | cons y bs =>
      have hA := sumSq_nonneg as
      have hB := sumSq_nonneg bs
      have hd : dot (x :: as) (y :: bs) = x * y + dot as bs := by
        simp [dot, List.zipWith]
      rw [hd, sumSq_cons, sumSq_cons]
      have ihb := ih bs
      have hbn : 0 ≤ x * x * sumSq bs + y * y * sumSq as :=
        add_nonneg (mul_nonneg (mul_self_nonneg x) hB) (mul_nonneg (mul_self_nonneg y) hA)
      have key : 2 * (x * y) * dot as bs ≤ x * x * sumSq bs + y * y * sumSq as := by
        rcases le_or_lt (2 * (x * y) * dot as bs) 0 with h0 | h0
        · linarith
        · have h1 : (2 * (x * y) * dot as bs) ^ 2 ≤ (x * x * sumSq bs + y * y * sumSq as) ^ 2 := by
            nlinarith [sq_nonneg (x * x * sumSq bs - y * y * sumSq as), ihb,
              mul_nonneg hA hB, sq_nonneg (x * y)]
          nlinarith [h1, h0, hbn]
      nlinarith [key, ihb]

theorem mean_nonneg {xs : List K} (h : ∀ x ∈ xs, 0 ≤ x) : 0 ≤ mean xs := by
  unfold mean
  exact div_nonneg (List.sum_nonneg h) (by positivity)

theorem sum_le_length_of_le_one {xs : List K} (h : ∀ x ∈ xs, x ≤ 1) :
    xs.sum ≤ (xs.length : K) := by
  induction xs with
  | nil => simp
  | cons x as ih =>
    have hx := h x (List.mem_cons_self x as)
    have has := ih (fun y hy => h y (List.mem_cons_of_mem x hy))
    simp only [List.sum_cons, List.length_cons]
    push_cast
    linarith

theorem mean_le_one {xs : List K} (h : ∀ x ∈ xs, x ≤ 1) : mean xs ≤ 1 := by
  unfold mean
  rcases eq_or_ne xs [] with rfl | hne
  · simp
  · have hlen : (0 : K) < (xs.length : K) := by
      have : 0 < xs.length := List.length_pos.mpr hne
      exact_mod_cast this
    rw [div_le_one hlen]
    exact sum_le_length_of_le_one h

theorem npMax_spec {xs : List K} (hne : xs ≠ []) :
    (xs.max?).getD 0 ∈ xs ∧ ∀ b ∈ xs, b ≤ (xs.max?).getD 0 := by
  obtain ⟨m, hm⟩ : ∃ m, xs.max? = some m := by
    cases xs with
    | nil => exact absurd rfl hne
    | cons x t => exact ⟨_, List.max?_cons⟩
  rw [hm]
  refine ⟨List.max?_mem max_choice hm, fun b hb => ?_⟩
  exact (List.max?_le_iff (fun a b c => max_le_iff) hm).mp (le_refl m) b hb

theorem npMin_spec {xs : List K} (hne : xs ≠ []) :
    (xs.min?).getD 0 ∈ xs ∧ ∀ b ∈ xs, (xs.min?).getD 0 ≤ b := by
  obtain ⟨m, hm⟩ : ∃ m, xs.min? = some m := by
    cases xs with
    | nil => exact absurd rfl hne
    | cons x t => exact ⟨_, List.min?_cons⟩
  rw [hm]
  refine ⟨List.min?_mem min_choice hm, fun b hb => ?_⟩
  exact (List.le_min?_iff (fun a b c => le_min_iff) hm).mp (le_refl m) b hb

end MathLemmas

section SimilarityBounds

variable {K : Type*} [LinearOrderedField K]

theorem le_of_sq_le_sq {a b : K} (h : a ^ 2 ≤ b ^ 2) (hb : 0 ≤ b) : a ≤ b := by
  by_contra hab
  push_neg at hab
  nlinarith [h, hab, hb]

theorem cosineSimilarityClamped_nonneg (s : K → K) (cur v : List K) :
    0 ≤ cosineSimilarityClamped s cur v := by
  unfold cosineSimilarityClamped
  split
  · exact le_max_left 0 _
  · exact le_refl 0

theorem cosineSimilarityClamped_le_one (s : K → K) (cur v : List K)
    (hc : SqrtSpec s (sumSq cur)) (hv : SqrtSpec s (sumSq v)) :
    cosineSimilarityClamped s cur v ≤ 1 := by
  unfold cosineSimilarityClamped
  split
  case isTrue h =>
    rcases h with ⟨h1, h2⟩
    apply max_le zero_le_one
    rw [div_le_one (mul_pos h1 h2)]
    apply le_of_sq_le_sq ?_ (le_of_lt (mul_pos h1 h2))
    calc dot cur v ^ 2 ≤ sumSq cur * sumSq v := dot_sq_le_sumSq_mul cur v
      _ = (s (sumSq cur) * s (sumSq v)) ^ 2 := by
          rw [mul_pow, sq, sq, hc.2, hv.2]
  case isFalse h => exact zero_le_one

theorem euclideanSimilarity_pos (s : K → K) (cur v : List K)
    (hd : SqrtSpec s (sumSq (vsub cur v))) : 0 < euclideanSimilarity s cur v := by
  unfold euclideanSimilarity
  have : (0 : K) < 1 + s (sumSq (vsub cur v)) := by linarith [hd.1]
  positivity

theorem euclideanSimilarity_le_one (s : K → K) (cur v : List K)
    (hd : SqrtSpec s (sumSq (vsub cur v))) : euclideanSimilarity s cur v ≤ 1 := by
  unfold euclideanSimilarity
  rw [div_le_one (by linarith [hd.1])]
  linarith [hd.1]

theorem epsGuard_pos : (0 : K) < epsGuard := by
  unfold epsGuard
  norm_num

theorem sqrtSpecOn_cur {s : K → K} {cur : List K} {stored : List (List K)}
    (hs : SqrtSpecOn s cur stored) : SqrtSpec s (sumSq cur) := by
  have := (List.forall_iff_forall_mem.mp hs) (sumSq cur)
  exact this (by simp [sqrtArgs])

theorem sqrtSpecOn_stored {s : K → K} {cur : List K} {stored : List (List K)}
    (hs : SqrtSpecOn s cur stored) : ∀ v ∈ stored, SqrtSpec s (sumSq v) := by
  intro v hv
  exact (List.forall_iff_forall_mem.mp hs) (sumSq v)
    (by simp [sqrtArgs, List.mem_append, List.mem_map]; right; left; exact ⟨v, hv, rfl⟩)

theorem sqrtSpecOn_diff {s : K → K} {cur : List K} {stored : List (List K)}
    (hs : SqrtSpecOn s cur stored) : ∀ v ∈ stored, SqrtSpec s (sumSq (vsub cur v)) := by
  intro v hv
  exact (List.forall_iff_forall_mem.mp hs) (sumSq (vsub cur v))
    (by simp [sqrtArgs, List.mem_append, List.mem_map]; right; right; left
        exact ⟨v, hv, rfl⟩)

theorem sqrtSpecOn_var {s : K → K} {cur : List K} {stored : List (List K)}
    (hs : SqrtSpecOn s cur stored) :
    SqrtSpec s (popVar (stored.map (cosineSimilarityClamped s cur))) := by
  exact (List.forall_iff_forall_mem.mp hs) _ (by simp [sqrtArgs])

end SimilarityBounds

section AnalysisFacts

variable {K : Type*} [LinearOrderedField K]
variable (s : K → K) (cur : List K) (stored : List (List K))

theorem asa_cosine_similarity_def :
    (advanced_similarity_analysis s cur stored).cosine_similarity =
      ((stored.map (cosineSimilarityClamped s cur)).max?).getD 0 := rfl

theorem asa_cosine_mean_def :
    (advanced_similarity_analysis s cur stored).cosine_mean =
      mean (stored.map (cosineSimilarityClamped s cur)) := rfl

theorem asa_cosine_std_def :
    (advanced_similarity_analysis s cur stored).cosine_std =
      s (popVar (stored.map (cosineSimilarityClamped s cur))) := rfl

theorem asa_cosine_min_def :
    (advanced_similarity_analysis s cur stored).cosine_min =
      ((stored.map (cosineSimilarityClamped s cur)).min?).getD 0 := rfl

theorem asa_euclidean_mean_def :
    (advanced_similarity_analysis s cur stored).euclidean_mean =
      mean (stored.map (euclideanSimilarity s cur)) := rfl

theorem asa_consensus_def :
    (advanced_similarity_analysis s cur stored).consensus_score =
      mean (stored.map (cosineSimilarityClamped s cur)) * (7 / 10) +
        mean (stored.map (euclideanSimilarity s cur)) * (3 / 10) := rfl

theorem asa_variance_penalty_def :
    (advanced_similarity_analysis s cur stored).variance_penalty =
      min 1 (s (popVar (stored.map (cosineSimilarityClamped s cur))) /
        (mean (stored.map (cosineSimilarityClamped s cur)) + epsGuard) * 2) := rfl

theorem asa_range_penalty_def :
    (advanced_similarity_analysis s cur stored).range_penalty =
      min 1 ((((stored.map (cosineSimilarityClamped s cur)).max?).getD 0 -
        ((stored.map (cosineSimilarityClamped s cur)).min?).getD 0) * 3) := rfl

theorem asa_final_confidence_def :
    (advanced_similarity_analysis s cur stored).final_confidence =
      (advanced_similarity_analysis s cur stored).consensus_score *
        (1 - (advanced_similarity_analysis s cur stored).variance_penalty * (3 / 10)) *
        (1 - (advanced_similarity_analysis s cur stored).range_penalty * (2 / 10)) := rfl

theorem blend_bounds {cm em : K} (h0 : 0 ≤ cm) (h1 : cm ≤ 1) (h2 : 0 ≤ em) (h3 : em ≤ 1) :
    0 ≤ cm * (7 / 10) + em * (3 / 10) ∧ cm * (7 / 10) + em * (3 / 10) ≤ 1 := by
  constructor <;> nlinarith

theorem damped_product_bounds {c v r : K} (hc0 : 0 ≤ c) (hc1 : c ≤ 1) (hv0 : 0 ≤ v)
    (hv1 : v ≤ 1) (hr0 : 0 ≤ r) (hr1 : r ≤ 1) :
    0 ≤ c * (1 - v * (3 / 10)) * (1 - r * (2 / 10)) ∧
      c * (1 - v * (3 / 10)) * (1 - r * (2 / 10)) ≤ 1 := by
  have h1a : (0 : K) ≤ 1 - v * (3 / 10) := by nlinarith
  have h1b : 1 - v * (3 / 10) ≤ (1 : K) := by nlinarith
  have h2a : (0 : K) ≤ 1 - r * (2 / 10) := by nlinarith
  have h2b : 1 - r * (2 / 10) ≤ (1 : K) := by nlinarith
  exact ⟨mul_nonneg (mul_nonneg hc0 h1a) h2a, mul_le_one (mul_le_one hc1 h1a h1b) h2a h2b⟩

theorem advanced_similarity_analysis_bounds
    (hs : SqrtSpecOn s cur stored) (hne : stored ≠ []) :
    0 ≤ (advanced_similarity_analysis s cur stored).consensus_score ∧
    (advanced_similarity_analysis s cur stored).consensus_score ≤ 1 ∧
    0 ≤ (advanced_similarity_analysis s cur stored).variance_penalty ∧
    (advanced_similarity_analysis s cur stored).variance_penalty ≤ 1 ∧
    0 ≤ (advanced_similarity_analysis s cur stored).range_penalty ∧
    (advanced_similarity_analysis s cur stored).range_penalty ≤ 1 ∧
    0 ≤ (advanced_similarity_analysis s cur stored).final_confidence ∧
    (advanced_similarity_analysis s cur stored).final_confidence ≤ 1 := by
  have hcos0 : ∀ x ∈ stored.map (cosineSimilarityClamped s cur), 0 ≤ x := by
    intro x hx
    rcases List.mem_map.mp hx with ⟨v, _, rfl⟩
    exact cosineSimilarityClamped_nonneg s cur v
  have hcos1 : ∀ x ∈ stored.map (cosineSimilarityClamped s cur), x ≤ 1 := by
    intro x hx
    rcases List.mem_map.mp hx with ⟨v, hv, rfl⟩
    exact cosineSimilarityClamped_le_one s cur v (sqrtSpecOn_cur hs) (sqrtSpecOn_stored hs v hv)
  have heuc0 : ∀ x ∈ stored.map (euclideanSimilarity s cur), 0 ≤ x := by
    intro x hx
    rcases List.mem_map.mp hx with ⟨v, hv, rfl⟩
    exact (euclideanSimilarity_pos s cur v (sqrtSpecOn_diff hs v hv)).le
  have heuc1 : ∀ x ∈ stored.map (euclideanSimilarity s cur), x ≤ 1 := by
    intro x hx
    rcases List.mem_map.mp hx with ⟨v, hv, rfl⟩
    exact euclideanSimilarity_le_one s cur v (sqrtSpecOn_diff hs v hv)
  have hcm0 : 0 ≤ mean (stored.map (cosineSimilarityClamped s cur)) := mean_nonneg hcos0
  have hcm1 : mean (stored.map (cosineSimilarityClamped s cur)) ≤ 1 := mean_le_one hcos1
  have hem0 : 0 ≤ mean (stored.map (euclideanSimilarity s cur)) := mean_nonneg heuc0
  have hem1 : mean (stored.map (euclideanSimilarity s cur)) ≤ 1 := mean_le_one heuc1
  have hstd : 0 ≤ s (popVar (stored.map (cosineSimilarityClamped s cur))) :=
    (sqrtSpecOn_var hs).1
  have hnem : stored.map (cosineSimilarityClamped s cur) ≠ [] := by
    simpa using hne
  have hmaxmin : ((stored.map (cosineSimilarityClamped s cur)).min?).getD 0 ≤
      ((stored.map (cosineSimilarityClamped s cur)).max?).getD 0 :=
    (npMax_spec hnem).2 _ (npMin_spec hnem).1
  have hc : 0 ≤ (advanced_similarity_analysis s cur stored).consensus_score ∧
      (advanced_similarity_analysis s cur stored).consensus_score ≤ 1 := by
    rw [asa_consensus_def]
    exact blend_bounds hcm0 hcm1 hem0 hem1
  have hvt : 0 ≤ s (popVar (stored.map (cosineSimilarityClamped s cur))) /
      (mean (stored.map (cosineSimilarityClamped s cur)) + epsGuard) * 2 := by
    have hp : (0 : K) < mean (stored.map (cosineSimilarityClamped s cur)) + epsGuard := by
      have := epsGuard_pos (K := K)
      linarith
    exact mul_nonneg (div_nonneg hstd hp.le) (by norm_num)
  have hv : 0 ≤ (advanced_similarity_analysis s cur stored).variance_penalty ∧
      (advanced_similarity_analysis s cur stored).variance_penalty ≤ 1 := by
    rw [asa_variance_penalty_def]
    exact ⟨le_min zero_le_one hvt, min_le_left 1 _⟩
  have hr : 0 ≤ (advanced_similarity_analysis s cur stored).range_penalty ∧
      (advanced_similarity_analysis s cur stored).range_penalty ≤ 1 := by
    rw [asa_range_penalty_def]
    refine ⟨le_min zero_le_one ?_, min_le_left 1 _⟩
    have := sub_nonneg.mpr hmaxmin
    linarith
  refine ⟨hc.1, hc.2, hv.1, hv.2, hr.1, hr.2, ?_, ?_⟩
  · rw [asa_final_confidence_def]
    exact (damped_product_bounds hc.1 hc.2 hv.1 hv.2 hr.1 hr.2).1
  · rw [asa_final_confidence_def]
    exact (damped_product_bounds hc.1 hc.2 hv.1 hv.2 hr.1 hr.2).2

end AnalysisFacts

section ReplicateFacts

variable {K : Type*} [LinearOrderedField K]

theorem mean_replicate {n : ℕ} (hn : 1 ≤ n) (c : K) : mean (List.replicate n c) = c := by
  unfold mean
  rw [List.sum_replicate, List.length_replicate]
  have hne : ((n : K)) ≠ 0 := by
    have : (0 : ℕ) < n := hn
    exact_mod_cast this.ne.symm
  rw [nsmul_eq_mul, mul_comm, mul_div_assoc, div_self hne, mul_one]

theorem popVar_replicate {n : ℕ} (hn : 1 ≤ n) (c : K) : popVar (List.replicate n c) = 0 := by
  unfold popVar
  rw [mean_replicate hn, List.map_replicate]
  simp only [sub_self]
  have : ((0 : K) - 0) ^ 2 = 0 := by ring
  rw [mean_replicate hn]
  ring

theorem npMax_getD_replicate {n : ℕ} (hn : 1 ≤ n) (c : K) :
    (((List.replicate n c).max?).getD 0) = c := by
  have hne : List.replicate n c ≠ [] := by
    simp [List.replicate_eq_nil_iff]
    omega
  exact List.eq_of_mem_replicate (npMax_spec hne).1

theorem npMin_getD_replicate {n : ℕ} (hn : 1 ≤ n) (c : K) :
    (((List.replicate n c).min?).getD 0) = c := by
  have hne : List.replicate n c ≠ [] := by
    simp [List.replicate_eq_nil_iff]
    omega
  exact List.eq_of_mem_replicate (npMin_spec hne).1

end ReplicateFacts

section ClaimC3

/-- The allowed IP ranges of the C3 scenario: a single CIDR `192.168.0.0/16`. -/
def c3AllowedRanges : List CIDRNetwork := [⟨⟨192, 168, 0, 0⟩, 16⟩]

/-- The client IP of the C3 scenario: `203.0.113.5`. -/
def c3ClientIp : IPv4 := ⟨203, 0, 113, 5⟩

/-- C3: the helper `_verify_ip_range` does reject `203.0.113.5` against the
allowed ranges `["192.168.0.0/16"]`, but `verify_network_access` never calls
it: the testing-mode bypass at the top of the function returns
`ip_verified: True, network_verified: True` unconditionally, so the attempt
IS verified, contradicting the claim. -/
theorem C3_testing_bypass_divergence :
    verify_ip_range c3AllowedRanges (some c3ClientIp) = false ∧
    (verify_network_access c3AllowedRanges (some c3ClientIp)).ip_verified = true ∧
    (verify_network_access c3AllowedRanges (some c3ClientIp)).network_verified = true := by
  refine ⟨by decide, rfl, rfl⟩

end ClaimC3

section ClaimC4

/-- C4, counterexample: an enrolled embedding containing a non-finite value
(here `NaN`) is NOT excluded by the validation loop of `mark_attendance` —
the validated `stored_embeddings` list still contains it, unchanged, and it
is handed to the similarity scoring. -/
theorem C4_counterexample :
    validateStoredEmbeddings [EmbeddingField.pyList [PyVal.num 1, PyVal.nan]] =
      [[PyVal.num 1, PyVal.nan]] := rfl

/-- C4, amended: the validation loop excludes only unparseable JSON strings,
non-list values, empty lists and records whose `float(x)` conversion raises;
any non-empty list of float values — finite or not — is kept verbatim in the
enrolled set that is passed on to scoring. -/
theorem C4_nonfinite_kept (rows : List EmbeddingField) (xs : List PyVal)
    (hne : xs ≠ []) (hnum : ∀ v ∈ xs, v ≠ PyVal.notNumber) :
    validateStoredEmbeddings (rows ++ [EmbeddingField.pyList xs]) =
      validateStoredEmbeddings rows ++ [xs] := by
  unfold validateStoredEmbeddings
  rw [List.filterMap_append]
  have h1 : xs.isEmpty = false := by
    cases xs with
    | nil => exact absurd rfl hne
    | cons y ys => rfl
  have h2 : xs.any (fun v => match v with | PyVal.notNumber => true | _ => false) = false := by
    rw [List.any_eq_false]
    intro v hv
    have hvn := hnum v hv
    cases v <;> simp_all
  have c1 : ¬ (xs.isEmpty = true) := by simp [h1]
  have c2 : ¬ ((xs.any (fun v => match v with | PyVal.notNumber => true | _ => false)) = true) := by
    simp only [h2]
    exact Bool.false_ne_true
  have h3 : validateEmbeddingRecord (EmbeddingField.pyList xs) = some xs := by
    show (if xs.isEmpty = true then none
          else if (xs.any (fun v => match v with | PyVal.notNumber => true | _ => false)) = true
            then none
          else some xs) = some xs
    rw [if_neg c1, if_neg c2]
  simp [List.filterMap_cons, h3]

/-- Witness for C4's amended claim at a concrete input: a one-element
enrolled set whose sole embedding contains `inf` survives validation. -/
theorem C4_nonfinite_kept_witness :
    validateStoredEmbeddings [EmbeddingField.pyList [PyVal.inf]] = [[PyVal.inf]] := by
  have h := C4_nonfinite_kept [] [PyVal.inf] (by simp)
    (by intro v hv; simp at hv; subst hv; simp)
  simpa using h

end ClaimC4

section ClaimC10

/-- A face-verification result with `match: True` used to drive the
orchestrator model at a concrete input. -/
def c10FaceResult : VerifyResult ℚ :=
  ⟨true, 7 / 10, 1, 1, 65 / 100, [], 0, 0, false, 65 / 100⟩

/-- A concrete `mark_attendance` run: network verified, no liveness sequence,
one valid stored embedding, a successful face match, a temporal-analysis step
that raises, and a successful insert. -/
def c10Input : MarkAttendanceInput Unit :=
  ⟨true, none, [EmbeddingField.pyList [PyVal.num 1]],
   Except.ok (VerifyOutcome.result c10FaceResult), Except.error (), true⟩

/-- C10: if the temporal security analysis raises after a successful face
match, `mark_attendance` records the error under `security_check_error` in
the verification details and still records attendance and returns
`success = true` — the fraud-risk overlay fails open. -/
theorem C10_temporal_fail_open {E : Type} (inp : MarkAttendanceInput E) (e : E)
    (f : VerifyOutcome ℚ)
    (hnet : inp.network_verified = true)
    (hliv : inp.liveness_sequence = none)
    (hrows : inp.embeddings_query.isEmpty = false)
    (hval : (validateStoredEmbeddings inp.embeddings_query).isEmpty = false)
    (hface : inp.face_result = Except.ok f)
    (hmatch : f.matched = true)
    (htemp : inp.temporal_result = Except.error e)
    (hins : inp.insert_ok = true) :
    mark_attendance inp = MarkOutcome.response true ⟨none, false, some e⟩ := by
  simp [mark_attendance, hnet, hliv, hrows, hval, hface, hmatch, htemp, hins]

/-- Witness for C10 at the concrete input `c10Input`. -/
theorem C10_temporal_fail_open_witness :
    mark_attendance c10Input = MarkOutcome.response true ⟨none, false, some ()⟩ :=
  C10_temporal_fail_open c10Input () (VerifyOutcome.result c10FaceResult)
    rfl rfl rfl rfl rfl rfl rfl rfl

end ClaimC10

section VerifyFacts

variable {K : Type*} [LinearOrderedField K]
variable (s : K → K) (live : List K) (stored : List (List K))

theorem vfc_raw_similarity_def : (verify_faces_checks s live stored).raw_similarity =
    (advanced_similarity_analysis s live stored).cosine_similarity := rfl

theorem vfc_confidence_def : (verify_faces_checks s live stored).confidence =
    (advanced_similarity_analysis s live stored).final_confidence := rfl

theorem vfc_threshold_def : (verify_faces_checks s live stored).threshold = threshold := rfl

theorem vfc_hso_def : (verify_faces_checks s live stored).high_similarity_override =
    decide (high_similarity_override ≤
      (advanced_similarity_analysis s live stored).cosine_similarity) := rfl

theorem vfc_effective_threshold_eq :
    (verify_faces_checks s live stored).effective_threshold =
      if high_similarity_override ≤ (advanced_similarity_analysis s live stored).cosine_similarity
      then threshold * (85 / 100) else threshold := by
  by_cases h : high_similarity_override ≤
      (advanced_similarity_analysis s live stored).cosine_similarity
  · simp [verify_faces_checks, h]
  · simp [verify_faces_checks, h]

end VerifyFacts

section ClaimC8

variable {K : Type*} [LinearOrderedField K]

/-- C8: whenever the best raw cosine similarity reaches the 0.9 override
point, the effective primary threshold actually used is `threshold * 0.85`,
strictly below the base threshold; below the override point the base
threshold is used unchanged (the relaxation applies only to evaluations that
trigger it). -/
theorem C8_override_relaxes_threshold (s : K → K) (live : List K) (stored : List (List K)) :
    (high_similarity_override ≤ (verify_faces_checks s live stored).raw_similarity →
      (verify_faces_checks s live stored).effective_threshold = threshold * (85 / 100) ∧
      (verify_faces_checks s live stored).effective_threshold <
        (verify_faces_checks s live stored).threshold) ∧
    ((verify_faces_checks s live stored).raw_similarity < high_similarity_override →
      (verify_faces_checks s live stored).effective_threshold =
        (verify_faces_checks s live stored).threshold) := by
  constructor
  · intro h
    rw [vfc_raw_similarity_def] at h
    rw [vfc_effective_threshold_eq, vfc_threshold_def, if_pos h]
    refine ⟨rfl, ?_⟩
    unfold threshold
    norm_num
  · intro h
    rw [vfc_raw_similarity_def] at h
    rw [vfc_effective_threshold_eq, vfc_threshold_def, if_neg (not_le.mpr h)]

end ClaimC8

section ClaimC9

variable {K : Type*} [LinearOrderedField K]

/-- C9: when the enrolled set consists of one embedding repeated (a set of
identical embeddings), the cosine similarities are all equal, so the
standard deviation and the max-min range are zero and both fraud penalties
vanish exactly. -/
theorem C9_identical_enrolled_penalties (s : K → K) (cur e : List K) (n : ℕ) (hn : 1 ≤ n)
    (hs : SqrtSpecOn s cur (List.replicate n e)) (he : sumSq e ≠ 0) :
    (advanced_similarity_analysis s cur (List.replicate n e)).variance_penalty = 0 ∧
    (advanced_similarity_analysis s cur (List.replicate n e)).range_penalty = 0 := by
  have hmap : (List.replicate n e).map (cosineSimilarityClamped s cur) =
      List.replicate n (cosineSimilarityClamped s cur e) := List.map_replicate
  have hvar : popVar ((List.replicate n e).map (cosineSimilarityClamped s cur)) = 0 := by
    rw [hmap, popVar_replicate hn]
  have hstd : s (popVar ((List.replicate n e).map (cosineSimilarityClamped s cur))) = 0 := by
    have hsp := sqrtSpecOn_var hs
    rw [hvar] at hsp ⊢
    exact mul_self_eq_zero.mp hsp.2
  constructor
  · rw [asa_variance_penalty_def, hstd, zero_div, zero_mul]
    simp
  · rw [asa_range_penalty_def, hmap, npMax_getD_replicate hn, npMin_getD_replicate hn,
      sub_self, zero_mul]
    simp

end ClaimC9

section ClaimC6

variable {K : Type*} [LinearOrderedField K]

/-- C6: for a live embedding and a non-empty enrolled set, the confidence
returned by `verify_faces` lies in `[0, 1]` (each clamped cosine similarity
is in `[0, 1]` by Cauchy-Schwarz, each Euclidean-derived similarity is in
`(0, 1]`, both penalties are in `[0, 1]`); and the error paths — no face
detected in the live image, or an empty enrolled set — return confidence
exactly 0. -/
theorem C6_confidence_bounds (s : K → K) (live : List K) (stored : List (List K))
    (hs : SqrtSpecOn s live stored) (hne : stored ≠ []) :
    (0 ≤ (verify_faces s (some live) stored).confidence ∧
      (verify_faces s (some live) stored).confidence ≤ 1) ∧
    (∀ st : List (List K), (verify_faces s none st).confidence = 0) ∧
    (verify_faces s (some live) ([] : List (List K))).confidence = 0 := by
  have hie : stored.isEmpty = false := by
    cases stored with
    | nil => exact absurd rfl hne
    | cons a t => rfl
  have hmain : verify_faces s (some live) stored =
      VerifyOutcome.result (verify_faces_checks s live stored) := by
    unfold verify_faces
    rw [hie]
    rfl
  obtain ⟨-, -, -, -, -, -, hf0, hf1⟩ :=
    advanced_similarity_analysis_bounds s live stored hs hne
  refine ⟨⟨?_, ?_⟩, ?_, ?_⟩
  · rw [hmain]
    exact hf0
  · rw [hmain]
    exact hf1
  · intro st
    unfold verify_faces
    rcases st with - | ⟨a, t⟩ <;> rfl
  · rfl

end ClaimC6

section SpecFormulas

variable {K : Type*} [LinearOrderedField K]

/-- Modelled from the spec: `mean_cosine`, the mean cosine similarity across
the enrolled set (each cosine clamped to `≥ 0`). -/
def spec_mean_cosine (s : K → K) (cur : List K) (stored : List (List K)) : K :=
  mean (stored.map (cosineSimilarityClamped s cur))

/-- Modelled from the spec: `mean_euclidean`, the mean Euclidean-derived
similarity `1 / (1 + euclidean_distance)` across the enrolled set. -/
def spec_mean_euclidean (s : K → K) (cur : List K) (stored : List (List K)) : K :=
  mean (stored.map (euclideanSimilarity s cur))

/-- Modelled from the spec:
`consensus_score = 0.7 * mean_cosine + 0.3 * mean_euclidean`. -/
def spec_consensus_score (s : K → K) (cur : List K) (stored : List (List K)) : K :=
  (7 / 10) * spec_mean_cosine s cur stored + (3 / 10) * spec_mean_euclidean s cur stored

/-- The spec's `clamp(0, 1, x)`. -/
def clamp01 (x : K) : K := max 0 (min 1 x)

/-- Modelled from the spec: the standard deviation of the cosine
similarities. -/
def spec_std_dev (s : K → K) (cur : List K) (stored : List (List K)) : K :=
  s (popVar (stored.map (cosineSimilarityClamped s cur)))

/-- Modelled from the spec:
`variance_penalty = clamp(0, 1, (std_dev / (mean_cosine + ε)) * 2.0)`. -/
def spec_variance_penalty (s : K → K) (cur : List K) (stored : List (List K)) : K :=
  clamp01 (spec_std_dev s cur stored / (spec_mean_cosine s cur stored + epsGuard) * 2)

/-- Modelled from the spec:
`range_penalty = clamp(0, 1, (max_cosine − min_cosine) * 3.0)`. -/
def spec_range_penalty (s : K → K) (cur : List K) (stored : List (List K)) : K :=
  clamp01 ((((stored.map (cosineSimilarityClamped s cur)).max?).getD 0 -
    ((stored.map (cosineSimilarityClamped s cur)).min?).getD 0) * 3)

/-- Modelled from the spec: `final_confidence =
consensus_score * (1 − variance_penalty*0.3) * (1 − range_penalty*0.2)`. -/
def spec_final_confidence (s : K → K) (cur : List K) (stored : List (List K)) : K :=
  spec_consensus_score s cur stored * (1 - spec_variance_penalty s cur stored * (3 / 10)) *
    (1 - spec_range_penalty s cur stored * (2 / 10))

end SpecFormulas

section ClaimC2

variable {K : Type*} [LinearOrderedField K]

/-- C2: for a non-empty enrolled set, the similarity analysis computes
exactly the spec's formulas: the 0.7/0.3 consensus blend, the clamped
variance penalty, the clamped range penalty, and the damped product giving
the final confidence.  (The code writes `min(1, ·)` where the spec writes
`clamp(0, 1, ·)`; the two agree because the penalised quantities are
nonnegative.) -/
theorem C2_analysis_formulas (s : K → K) (cur : List K) (stored : List (List K))
    (hs : SqrtSpecOn s cur stored) (hne : stored ≠ []) :
    (advanced_similarity_analysis s cur stored).consensus_score =
      spec_consensus_score s cur stored ∧
    (advanced_similarity_analysis s cur stored).variance_penalty =
      spec_variance_penalty s cur stored ∧
    (advanced_similarity_analysis s cur stored).range_penalty =
      spec_range_penalty s cur stored ∧
    (advanced_similarity_analysis s cur stored).final_confidence =
      spec_final_confidence s cur stored := by
  have hcos0 : ∀ x ∈ stored.map (cosineSimilarityClamped s cur), 0 ≤ x := by
    intro x hx
    rcases List.mem_map.mp hx with ⟨v, -, rfl⟩
    exact cosineSimilarityClamped_nonneg s cur v
  have hcm0 : 0 ≤ mean (stored.map (cosineSimilarityClamped s cur)) := mean_nonneg hcos0
  have hstd : 0 ≤ s (popVar (stored.map (cosineSimilarityClamped s cur))) :=
    (sqrtSpecOn_var hs).1
  have hnem : stored.map (cosineSimilarityClamped s cur) ≠ [] := by simpa using hne
  have hmaxmin : ((stored.map (cosineSimilarityClamped s cur)).min?).getD 0 ≤
      ((stored.map (cosineSimilarityClamped s cur)).max?).getD 0 :=
    (npMax_spec hnem).2 _ (npMin_spec hnem).1
  have hvt : 0 ≤ s (popVar (stored.map (cosineSimilarityClamped s cur))) /
      (mean (stored.map (cosineSimilarityClamped s cur)) + epsGuard) * 2 := by
    have hp : (0 : K) < mean (stored.map (cosineSimilarityClamped s cur)) + epsGuard := by
      have := epsGuard_pos (K := K)
      linarith
    exact mul_nonneg (div_nonneg hstd hp.le) (by norm_num)
  have hrt : (0 : K) ≤ (((stored.map (cosineSimilarityClamped s cur)).max?).getD 0 -
      ((stored.map (cosineSimilarityClamped s cur)).min?).getD 0) * 3 := by
    have := sub_nonneg.mpr hmaxmin
    linarith
  have hcons : (advanced_similarity_analysis s cur stored).consensus_score =
      spec_consensus_score s cur stored := by
    rw [asa_consensus_def]
    unfold spec_consensus_score spec_mean_cosine spec_mean_euclidean
    ring
  have hvp : (advanced_similarity_analysis s cur stored).variance_penalty =
      spec_variance_penalty s cur stored := by
    rw [asa_variance_penalty_def]
    unfold spec_variance_penalty clamp01 spec_std_dev spec_mean_cosine
    rw [max_eq_right (le_min zero_le_one hvt)]
  have hrp : (advanced_similarity_analysis s cur stored).range_penalty =
      spec_range_penalty s cur stored := by
    rw [asa_range_penalty_def]
    unfold spec_range_penalty clamp01
    rw [max_eq_right (le_min zero_le_one hrt)]
  refine ⟨hcons, hvp, hrp, ?_⟩
  rw [asa_final_confidence_def, hcons, hvp, hrp]
  rfl

end ClaimC2

section ClaimC1

variable {K : Type*} [LinearOrderedField K]

/-- The number of passed entries in the `security_checks` list
(`passed_checks` in the source). -/
def passedChecksCount (s : K → K) (live : List K) (stored : List (List K)) : ℕ :=
  ((verify_faces_checks s live stored).security_checks.filter (fun c => c.snd)).length

/-- C1, amended: the decision rule actually implemented.  In
high-similarity-override mode (`raw ≥ 0.9`) the match requires exactly the
two critical checks (primary threshold and minimum baseline); in standard
mode it requires at least 4 of the 5 checks to pass, with NO separate
requirement on the critical checks. -/
theorem C1_amended_decision_rule (s : K → K) (live : List K) (stored : List (List K))
    (hne : stored ≠ []) (hs : SqrtSpecOn s live stored) :
    (verify_faces_checks s live stored).matched = true ↔
      ((high_similarity_override ≤ (advanced_similarity_analysis s live stored).cosine_similarity ∧
        (verify_faces_checks s live stored).effective_threshold ≤
          (advanced_similarity_analysis s live stored).final_confidence ∧
        min_acceptable_threshold ≤
          (advanced_similarity_analysis s live stored).cosine_similarity) ∨
       ((advanced_similarity_analysis s live stored).cosine_similarity <
          high_similarity_override ∧
        4 ≤ passedChecksCount s live stored)) := by
  by_cases h : high_similarity_override ≤
      (advanced_similarity_analysis s live stored).cosine_similarity
  · have hnl := not_lt.mpr h
    rw [vfc_effective_threshold_eq, if_pos h]
    simp only [verify_faces_checks, passedChecksCount, h, hnl, decide_True, if_true,
      List.filter, List.all_cons, List.all_nil, decide_eq_true_eq, false_and, or_false,
      true_and]
    simp [h, Bool.and_eq_true, decide_eq_true_eq]
  · have hlt := not_le.mp h
    rw [vfc_effective_threshold_eq, if_neg h]
    simp only [verify_faces_checks, passedChecksCount, h, hlt, decide_False, if_false,
      decide_eq_true_eq]
    simp [h, hlt]

end ClaimC1

section ClaimC5

/-- The age in seconds that `analyze_temporal_security_patterns` computes for
a record whose timestamp parses: a missing timestamp defaults to "now", i.e.
age 0 — which places the record INSIDE every trailing time window.  (Only
used on records whose timestamp is not malformed.) -/
def recordAge (a : AttemptRecord) : ℚ :=
  match a.timestamp with
  | TimestampField.missing => 0
  | TimestampField.malformed => 0
  | TimestampField.iso t => t

theorem parseAges_ok (l : List AttemptRecord)
    (h : ∀ a ∈ l, a.timestamp ≠ TimestampField.malformed) :
    parseAges l = Except.ok (l.map (fun a => (a, recordAge a))) := by
  induction l with
  | nil => rfl
  | cons a t ih =>
    have ha := h a (List.mem_cons_self a t)
    have ht := ih (fun b hb => h b (List.mem_cons_of_mem a hb))
    unfold parseAges
    cases hts : a.timestamp with
    | missing => simp [parseTimestampAge, ht, recordAge, hts]
    | malformed => exact absurd hts ha
    | iso q => simp [parseTimestampAge, ht, recordAge, hts]

theorem length_filter_map_age (l : List AttemptRecord) (p : ℚ → Bool) :
    ((l.map (fun a => (a, recordAge a))).filter (fun q => p q.snd)).length =
      (l.filter (fun a => p (recordAge a))).length := by
  induction l with
  | nil => rfl
  | cons a t ih =>
    by_cases hp : p (recordAge a) = true
    · simp [List.filter_cons, hp, ih]
    · simp [List.filter_cons, hp, ih]

/-- C5, amended: `analyze_temporal_security_patterns` never raises as long
as every PRESENT timestamp is well-formed; a record with a MISSING timestamp
field defaults to "now" (age 0) and is therefore INCLUDED in both trailing
windows, not excluded from the windowed pattern detection.  (A malformed
timestamp, by contrast, raises a `ValueError` out of the function — see the
counterexample — which the orchestrator's catch-all then absorbs.) -/
theorem C5_no_malformed_no_error (attempts : List AttemptRecord) (conf : ℚ)
    (h : ∀ a ∈ attempts, a.timestamp ≠ TimestampField.malformed) :
    ∃ r, analyze_temporal_security_patterns attempts conf = Except.ok r ∧
      r.total_attempts_1h =
        (attempts.filter (fun a => decide (recordAge a < 3600))).length ∧
      r.total_attempts_24h =
        (attempts.filter (fun a => decide (recordAge a < 86400))).length := by
  unfold analyze_temporal_security_patterns
  rw [parseAges_ok attempts h]
  refine ⟨_, rfl, ?_, ?_⟩
  · exact length_filter_map_age attempts (fun x => decide (x < 3600))
  · exact length_filter_map_age attempts (fun x => decide (x < 86400))

/-- An attempt record with a malformed (present but unparseable) timestamp. -/
def malformedAttempt : AttemptRecord := ⟨TimestampField.malformed, none, none⟩

/-- An attempt record with no timestamp field at all. -/
def missingAttempt : AttemptRecord := ⟨TimestampField.missing, none, none⟩

/-- C5, counterexample: (i) a single malformed attempt record makes
`analyze_temporal_security_patterns` raise (`datetime.fromisoformat` raises
`ValueError`; the record is NOT skipped); (ii) records with a missing
timestamp are NOT excluded from the time-windowed detection: twelve
timestamp-less records all land in the trailing-hour window and trigger the
rapid-attempts block. -/
theorem C5_counterexample :
    analyze_temporal_security_patterns [malformedAttempt] 1 = Except.error () ∧
    ((analyze_temporal_security_patterns (List.replicate 12 missingAttempt) 1).toOption.map
      (fun r => (r.should_block, r.total_attempts_1h))) = some (true, 12) := by
  constructor
  · rfl
  · norm_num [analyze_temporal_security_patterns, parseAges, parseTimestampAge,
      missingAttempt, List.replicate, popVar, mean, Except.toOption, List.filter]

/-- Witness for C5's amended claim at a concrete two-record history: one
record with a missing timestamp (counted, age 0) and one 5000 seconds old
(outside the hour window, inside the day window). -/
theorem C5_no_malformed_no_error_witness :
    ∃ r, analyze_temporal_security_patterns
        [missingAttempt, ⟨TimestampField.iso 5000, none, none⟩] 1 = Except.ok r ∧
      r.total_attempts_1h =
        (([missingAttempt, ⟨TimestampField.iso 5000, none, none⟩]).filter
          (fun a => decide (recordAge a < 3600))).length ∧
      r.total_attempts_24h =
        (([missingAttempt, ⟨TimestampField.iso 5000, none, none⟩]).filter
          (fun a => decide (recordAge a < 86400))).length :=
  C5_no_malformed_no_error [missingAttempt, ⟨TimestampField.iso 5000, none, none⟩] 1
    (by
      intro a ha
      simp only [List.mem_cons, List.mem_singleton, List.not_mem_nil, or_false] at ha
      rcases ha with rfl | rfl
      · simp [missingAttempt]
      · simp)

end ClaimC5

section ClaimC7

/-- A decoded frame containing one detected face (a 10 x 10 rectangle, area
100), used for the identical-frames scenarios. -/
def idFaceFrame : Frame := some [⟨0, 0, 10, 10⟩]

/-- C7: for every sequence of at least 3 frames that all decode,
`detect_liveness` passes exactly when the face-detection rate reaches 0.7
and either movement was detected or the sequence has at most 5 frames; in
particular 5 identical face-containing frames (zero area variance) pass and
10 identical face-containing frames fail. -/
theorem C7_liveness_pass_rule :
    (∀ frames : List Frame, 3 ≤ frames.length → (∀ f ∈ frames, f.isSome) →
      (detect_liveness frames).passed =
        (decide ((7 : ℚ) / 10 ≤ (detect_liveness frames).rate) &&
          ((detect_liveness frames).movement || decide (frames.length ≤ 5)))) ∧
    (detect_liveness (List.replicate 5 idFaceFrame)).passed = true ∧
    (detect_liveness (List.replicate 10 idFaceFrame)).passed = false := by
  refine ⟨?_, ?_, ?_⟩
  · intro frames h3 hdec
    have hnlt : ¬ frames.length < 3 := by omega
    simp only [detect_liveness, if_neg hnlt]
    rfl
  · norm_num [detect_liveness, frameAreas, idFaceFrame, List.replicate, popVar, mean,
      LivenessResult.passed, List.filterMap]
  · norm_num [detect_liveness, frameAreas, idFaceFrame, List.replicate, popVar, mean,
      LivenessResult.passed, List.filterMap]

/-- Witness for C7 at a concrete 3-frame all-decoding sequence. -/
theorem C7_liveness_pass_rule_witness :
    (detect_liveness (List.replicate 3 idFaceFrame)).passed =
      (decide ((7 : ℚ) / 10 ≤ (detect_liveness (List.replicate 3 idFaceFrame)).rate) &&
        ((detect_liveness (List.replicate 3 idFaceFrame)).movement ||
          decide ((List.replicate 3 idFaceFrame).length ≤ 5))) :=
  C7_liveness_pass_rule.1 (List.replicate 3 idFaceFrame) (by simp)
    (by
      intro f hf
      rw [List.eq_of_mem_replicate hf]
      rfl)

end ClaimC7

section ConcreteRuns

/-- A rational square-root table covering every argument the concrete runs
below feed to the square root.  The conjunct `SqrtSpecOn tableSqrt …` proved
for each run certifies that this function agrees with the exact nonnegative
square root at every point the computation consults it, so the runs coincide
with the exact-real computation of the source. -/
def tableSqrt : ℚ → ℚ := fun q =>
  if q = 0 then 0
  else if q = 1 then 1
  else if q = 9 then 3
  else if q = 25 then 5
  else if q = 2809 / 64 then 53 / 8
  else if q = 225 / 64 then 15 / 8
  else if q = 1225 / 64 then 35 / 8
  else if q = 169 / 280900 then 13 / 530
  else 0

/-- Live embedding of the C1 counterexample run (norm 3). -/
def cexLive : List ℚ := [3, 0, 0]

/-- Enrolled set of the C1 counterexample run: two embeddings with norms
53/8 and 15/8, cosine similarities 45/53 and 4/5 against `cexLive`, and
Euclidean distances 35/8 and 15/8. -/
def cexStored : List (List ℚ) := [[45 / 8, 7 / 2, 0], [3 / 2, 0, 9 / 8]]

/-- C1, counterexample: a standard-mode run (no high-similarity override) in
which `verify_faces` returns `match = true` although the critical Primary
threshold check FAILS — final confidence ≈ 0.6265 is below the effective
threshold 0.65 — because the other four checks pass and the standard-mode
rule only counts 4 of 5, never separately enforcing the critical checks.
The `SqrtSpecOn` conjunct certifies that every square root taken in this
run is exact, so the run is a faithful execution of the source. -/
theorem C1_counterexample_critical_not_enforced :
    SqrtSpecOn tableSqrt cexLive cexStored ∧
    cexStored ≠ [] ∧
    (verify_faces_checks tableSqrt cexLive cexStored).high_similarity_override = false ∧
    (verify_faces_checks tableSqrt cexLive cexStored).matched = true ∧
    (verify_faces_checks tableSqrt cexLive cexStored).confidence <
      (verify_faces_checks tableSqrt cexLive cexStored).effective_threshold := by
  refine ⟨?_, ?_, ?_⟩
  · norm_num [SqrtSpecOn, sqrtArgs, List.forall_cons, List.Forall, SqrtSpec, tableSqrt,
      sumSq, dot, vsub, cexLive, cexStored, List.zipWith, popVar, mean,
      cosineSimilarityClamped, max_def]
  · simp [cexStored]
  · norm_num [verify_faces_checks, advanced_similarity_analysis, cexStored, threshold,
      min_acceptable_threshold, consensus_threshold, high_similarity_override, epsGuard,
      cosineSimilarityClamped, euclideanSimilarity, tableSqrt, sumSq, dot, vsub, cexLive,
      List.zipWith, mean, popVar, max_def, min_def, List.filter]

/-- Witness for C1's amended decision rule at the concrete run
`live = [1]`, `stored = [[1]]`. -/
theorem C1_amended_decision_rule_witness :
    (verify_faces_checks tableSqrt [(1 : ℚ)] [[1]]).matched = true ↔
      ((high_similarity_override ≤
          (advanced_similarity_analysis tableSqrt [(1 : ℚ)] [[1]]).cosine_similarity ∧
        (verify_faces_checks tableSqrt [(1 : ℚ)] [[1]]).effective_threshold ≤
          (advanced_similarity_analysis tableSqrt [(1 : ℚ)] [[1]]).final_confidence ∧
        min_acceptable_threshold ≤
          (advanced_similarity_analysis tableSqrt [(1 : ℚ)] [[1]]).cosine_similarity) ∨
       ((advanced_similarity_analysis tableSqrt [(1 : ℚ)] [[1]]).cosine_similarity <
          high_similarity_override ∧
        4 ≤ passedChecksCount tableSqrt [(1 : ℚ)] [[1]])) :=
  C1_amended_decision_rule tableSqrt [(1 : ℚ)] [[1]] (by simp)
    (by
      norm_num [SqrtSpecOn, sqrtArgs, List.forall_cons, List.Forall, SqrtSpec, tableSqrt,
        sumSq, dot, vsub, List.zipWith, popVar, mean, cosineSimilarityClamped, max_def])

/-- Witness for C2 at the concrete run `live = [1]`, `stored = [[1]]`. -/
theorem C2_analysis_formulas_witness :
    (advanced_similarity_analysis tableSqrt [(1 : ℚ)] [[1]]).consensus_score =
      spec_consensus_score tableSqrt [(1 : ℚ)] [[1]] ∧
    (advanced_similarity_analysis tableSqrt [(1 : ℚ)] [[1]]).variance_penalty =
      spec_variance_penalty tableSqrt [(1 : ℚ)] [[1]] ∧
    (advanced_similarity_analysis tableSqrt [(1 : ℚ)] [[1]]).range_penalty =
      spec_range_penalty tableSqrt [(1 : ℚ)] [[1]] ∧
    (advanced_similarity_analysis tableSqrt [(1 : ℚ)] [[1]]).final_confidence =
      spec_final_confidence tableSqrt [(1 : ℚ)] [[1]] :=
  C2_analysis_formulas tableSqrt [(1 : ℚ)] [[1]]
    (by
      norm_num [SqrtSpecOn, sqrtArgs, List.forall_cons, List.Forall, SqrtSpec, tableSqrt,
        sumSq, dot, vsub, List.zipWith, popVar, mean, cosineSimilarityClamped, max_def])
    (by simp)

/-- Witness for C6 at the concrete run `live = [1]`, `stored = [[1]]`. -/
theorem C6_confidence_bounds_witness :
    0 ≤ (verify_faces tableSqrt (some [(1 : ℚ)]) [[1]]).confidence ∧
    (verify_faces tableSqrt (some [(1 : ℚ)]) [[1]]).confidence ≤ 1 :=
  (C6_confidence_bounds tableSqrt [(1 : ℚ)] [[1]]
    (by
      norm_num [SqrtSpecOn, sqrtArgs, List.forall_cons, List.Forall, SqrtSpec, tableSqrt,
        sumSq, dot, vsub, List.zipWith, popVar, mean, cosineSimilarityClamped, max_def])
    (by simp)).1

/-- Witness for C8 at the concrete run `live = [1]`, `stored = [[1]]`, whose
raw similarity is exactly 1 and so triggers the override. -/
theorem C8_override_relaxes_threshold_witness :
    (verify_faces_checks tableSqrt [(1 : ℚ)] [[1]]).effective_threshold =
      threshold * (85 / 100) ∧
    (verify_faces_checks tableSqrt [(1 : ℚ)] [[1]]).effective_threshold <
      (verify_faces_checks tableSqrt [(1 : ℚ)] [[1]]).threshold :=
  (C8_override_relaxes_threshold tableSqrt [(1 : ℚ)] [[1]]).1
    (by
      norm_num [vfc_raw_similarity_def, asa_cosine_similarity_def, cosineSimilarityClamped,
        tableSqrt, sumSq, dot, List.zipWith, max_def, high_similarity_override])

/-- Witness for C9 at the concrete run `live = [4, 3]`,
`stored = [[3, 4], [3, 4]]` (the same embedding enrolled twice). -/
theorem C9_identical_enrolled_penalties_witness :
    (advanced_similarity_analysis tableSqrt [(3 : ℚ), 4]
      (List.replicate 2 [(3 : ℚ), 4])).variance_penalty = 0 ∧
    (advanced_similarity_analysis tableSqrt [(3 : ℚ), 4]
      (List.replicate 2 [(3 : ℚ), 4])).range_penalty = 0 :=
  C9_identical_enrolled_penalties tableSqrt [(3 : ℚ), 4] [(3 : ℚ), 4] 2 (by norm_num)
    (by
      norm_num [SqrtSpecOn, sqrtArgs, List.forall_cons, List.Forall, SqrtSpec, tableSqrt,
        sumSq, dot, vsub, List.zipWith, popVar, mean, cosineSimilarityClamped, max_def,
        List.replicate])
    (by norm_num [sumSq, dot, List.zipWith])

end ConcreteRuns

end AttendanceMaps
